import Mathlib

/-!
Shallow embedding of the Fandom-Entry-Pass escrow endpoints.

The repository is a set of serverless endpoints around Stripe PaymentIntents
with manual capture.  Each endpoint below is modelled from the point where the
PaymentIntent has been resolved (the HTTP/session-lookup glue in front of that
point is deployment plumbing).  Stripe collaborator semantics used by the
model: `paymentIntents.capture` succeeds exactly on a `requires_capture`
intent and moves it to `succeeded`; `paymentIntents.cancel` moves a
`requires_capture` intent to `canceled`; a capture or cancel of an intent in
any other state throws, which the endpoints surface through their outer
`catch` as a 500-style error with no state change.  Metadata numbers written
by the system are nonnegative epoch seconds, and the code coerces an absent or
empty `fep_confirm_deadline` to 0 via `Number(x || 0)`, so the stored deadline
is modelled as a natural number with 0 meaning absent.
-/

namespace FEP

/-- JS `Math.round`: round half toward positive infinity. -/
def jsRound (q : ℚ) : ℤ := ⌊q + 1/2⌋

/-- JS `toCents` helper from api/create-checkout-session.js:
`Math.round(num * 100)`. -/
def toCents (q : ℚ) : ℤ := jsRound (q * 100)

/-- Stripe PaymentIntent statuses relevant to the escrow flow. -/
inductive PIStatus
  | requires_capture
  | succeeded
  | canceled
  | processing
  deriving DecidableEq, Repr

/-- The `fep_*` metadata carried on a PaymentIntent.  Only the keys the
escrow endpoints read or write are modelled; string keys absent from the
metadata are modelled by their JS coercion defaults (empty string, 0). -/
structure Meta where
  fep : String := ""
  fep_status : String := ""
  fep_confirm_deadline : Nat := 0
  price : ℚ := 0
  qty : Nat := 1
  sellerAccountId : String := ""
  listingId : String := ""
  fep_captured_at : Nat := 0
  fep_canceled_at : Nat := 0
  fep_sent_at : Nat := 0
  fep_payout_usd : ℚ := 0
  deriving DecidableEq, Repr

/-- A Stripe PaymentIntent as seen by the endpoints. -/
structure PaymentIntent where
  status : PIStatus
  capture_method : String := "manual"
  metadata : Meta := {}
  latest_charge : Option String := none
  deriving DecidableEq, Repr

/-- Calls issued to the Stripe collaborator by a handler run. -/
inductive StripeCall
  | capture
  | cancel
  | transfer (amountCents : ℤ) (destination : String)
  | update (m : Meta)
  deriving DecidableEq, Repr

def isCaptureCall : StripeCall → Bool
  | .capture => true
  | _ => false

def isCancelCall : StripeCall → Bool
  | .cancel => true
  | _ => false

def isTransferCall : StripeCall → Bool
  | .transfer _ _ => true
  | _ => false

def isUpdateCall : StripeCall → Bool
  | .update _ => true
  | _ => false

/-- A settlement operation: a capture or a cancel call. -/
def isSettlementOp (c : StripeCall) : Bool := isCaptureCall c || isCancelCall c

/-- Outcome of one endpoint invocation: HTTP status, response flags, the
PaymentIntent state after the run, and the collaborator calls issued. -/
structure ApiResult where
  httpStatus : Nat
  pi : PaymentIntent
  calls : List StripeCall := []
  alreadyCaptured : Bool := false
  alreadyCanceled : Bool := false
  alreadySent : Bool := false
  captured : Bool := false
  canceledOk : Bool := false
  ok : Bool := false
  expiredError : Bool := false
  serverError : Bool := false
  deriving DecidableEq, Repr

/-! ## confirm-received (unnamed/part_006, the variant with the payout
transfer; api/confirm-received.js is the same handler without the transfer
block). -/

/-- Seller platform fee per ticket in USD: `price * 0.05 + 0.75`. -/
def platformFeePerTicketUsd (price : ℚ) : ℚ := price * (5/100) + 3/4

/-- JS `Math.max(0, price - platformFeePerTicket)`. -/
def payoutPerTicketUsd (price : ℚ) : ℚ := max 0 (price - platformFeePerTicketUsd price)

/-- JS `Math.max(0, payoutPerTicket * qty)` with `qty = Math.max(1, md.qty)`. -/
def totalPayoutUsd (md : Meta) : ℚ := max 0 (payoutPerTicketUsd md.price * (max 1 md.qty : ℕ))

/-- The transfer guard of confirm-received:
`sellerAccountId && totalPayout > 0 && chargeId`. -/
def wantsTransfer (pi : PaymentIntent) : Prop :=
  pi.metadata.sellerAccountId ≠ "" ∧ 0 < totalPayoutUsd pi.metadata ∧ pi.latest_charge.isSome

instance (pi : PaymentIntent) : Decidable (wantsTransfer pi) := by
  unfold wantsTransfer; infer_instance

/-- The confirm-received handler (unnamed/part_006).  `transferOk` models the
upstream outcome of the `stripe.transfers.create` call; every other
collaborator call in this handler is assumed to come back successfully once
its Stripe-side precondition holds. -/
def confirmReceived (now : Nat) (transferOk : Bool) (pi : PaymentIntent) : ApiResult :=
  if pi.status = .succeeded then
    -- already captured: return early, no side effect
    { httpStatus := 200, alreadyCaptured := true, captured := true, pi := pi }
  else
    let deadline := pi.metadata.fep_confirm_deadline
    if deadline ≠ 0 ∧ deadline < now then
      { httpStatus := 400, expiredError := true, pi := pi }
    else if pi.status ≠ .requires_capture then
      -- stripe.paymentIntents.capture throws on a non-capturable intent;
      -- the outer catch returns the 500 "Failed to capture payment" path
      { httpStatus := 500, serverError := true, pi := pi, calls := [.capture] }
    else
      let piC : PaymentIntent := { pi with status := .succeeded }
      let md := pi.metadata
      let totalPayout := totalPayoutUsd md
      if wantsTransfer pi then
        if transferOk then
          let mdF : Meta :=
            { md with fep_status := "captured", fep_captured_at := now,
                      fep_payout_usd := totalPayout }
          { httpStatus := 200, captured := true,
            pi := { piC with metadata := mdF },
            calls := [.capture, .transfer (jsRound (totalPayout * 100)) md.sellerAccountId,
                      .update mdF] }
        else
          -- the transfer threw: the capture already happened upstream and is
          -- not rolled back, the metadata update is skipped, and the outer
          -- catch returns the 500 "Failed to capture payment" path
          { httpStatus := 500, serverError := true, pi := piC,
            calls := [.capture, .transfer (jsRound (totalPayout * 100)) md.sellerAccountId] }
      else
        let mdF : Meta :=
          { md with fep_status := "captured", fep_captured_at := now,
                    fep_payout_usd := totalPayout }
        { httpStatus := 200, captured := true,
          pi := { piC with metadata := mdF },
          calls := [.capture, .update mdF] }

/-! ## cancel-order (api/cancel-order.js): buyer-initiated cancellation. -/

/-- The cancel-order handler.  Cancellation requires the intent to still be
in `requires_capture` and the metadata to carry neither the seller `sent`
marker nor the `on_hold` marker. -/
def cancelOrder (now : Nat) (pi : PaymentIntent) : ApiResult :=
  if pi.status ≠ .requires_capture then
    { httpStatus := 400, pi := pi }        -- "Not cancelable"
  else if pi.metadata.fep_status = "sent" then
    { httpStatus := 409, pi := pi }        -- "Already sent"
  else if pi.metadata.fep_status = "on_hold" then
    { httpStatus := 409, pi := pi }        -- "On hold"
  else
    let mdF : Meta := { pi.metadata with fep_status := "canceled", fep_canceled_at := now }
    { httpStatus := 200, ok := true, canceledOk := true,
      pi := { pi with status := .canceled, metadata := mdF },
      calls := [.cancel, .update mdF] }

/-! ## report-issue (api/report-issue.js): the buyer disputes delivery. -/

/-- The report-issue handler.  On an intent still awaiting capture it writes
`fep_status = "issue_reported"` with `fep_canceled_at` and then cancels the
authorization with the `cancel:` idempotency key. -/
def reportIssue (now : Nat) (pi : PaymentIntent) : ApiResult :=
  if pi.status = .succeeded then
    { httpStatus := 400, pi := pi }        -- captured; cannot cancel authorization
  else if pi.status = .canceled then
    { httpStatus := 200, alreadyCanceled := true, canceledOk := true, pi := pi }
  else if pi.status ≠ .requires_capture then
    { httpStatus := 400, pi := pi }        -- not in a cancelable state
  else
    let md1 : Meta := { pi.metadata with fep_status := "issue_reported", fep_canceled_at := now }
    { httpStatus := 200, ok := true, canceledOk := true,
      pi := { pi with status := .canceled, metadata := md1 },
      calls := [.update md1, .cancel] }

/-! ## mark-sent (api/mark-sent.js): seller marks the tickets as sent. -/

/-- The hold markers recognised across the endpoints:
`["issue_reported", "on_hold", "dispute"]`. -/
def isOnHoldStatus (s : String) : Bool :=
  s = "on_hold" || s = "issue_reported" || s = "dispute"

/-- The mark-sent handler: sets the auxiliary `sent` marker while the intent
is awaiting capture, without touching the intent status. -/
def markSent (now : Nat) (pi : PaymentIntent) : ApiResult :=
  if pi.status ≠ .requires_capture then
    { httpStatus := 400, pi := pi }
  else if isOnHoldStatus pi.metadata.fep_status then
    { httpStatus := 409, pi := pi }        -- on hold or disputed; cannot mark sent
  else if pi.metadata.fep_status = "sent" then
    { httpStatus := 200, ok := true, alreadySent := true, pi := pi }
  else
    let mdF : Meta := { pi.metadata with fep_status := "sent", fep_sent_at := now }
    { httpStatus := 200, ok := true, pi := { pi with metadata := mdF },
      calls := [.update mdF] }

/-! ## cron-auto-release (api/cron-auto-release.js): the release scheduler.
The Stripe search query pre-filters on `requires_capture`, and the loop body
re-checks the status defensively, so the model takes an arbitrary list of
intents and applies the loop body to each. -/

/-- The per-run counters returned by the sweep. -/
structure SweepResults where
  checked : Nat := 0
  due : Nat := 0
  captured : Nat := 0
  canceled : Nat := 0
  skipped_on_hold : Nat := 0
  already_final : Nat := 0
  errors : Nat := 0
  deriving DecidableEq, Repr

/-- One iteration of the sweep loop on a single PaymentIntent: returns the
intent state after the iteration, the updated counters, and the collaborator
calls issued. -/
def cronProcess (now : Nat) (pi : PaymentIntent) (r : SweepResults) :
    PaymentIntent × SweepResults × List StripeCall :=
  let r1 := { r with checked := r.checked + 1 }
  if pi.status ≠ .requires_capture then
    (pi, { r1 with already_final := r1.already_final + 1 }, [])
  else
    let meta := pi.metadata
    let deadline := meta.fep_confirm_deadline
    if deadline = 0 then (pi, r1, [])          -- no deadline configured: skip
    else if now < deadline then (pi, r1, [])   -- not yet due
    else
      let r2 := { r1 with due := r1.due + 1 }
      if isOnHoldStatus meta.fep_status then
        let mdF : Meta := { meta with fep_status := "canceled" }
        ({ pi with status := .canceled, metadata := mdF },
         { r2 with canceled := r2.canceled + 1 },
         [.cancel, .update mdF])
      else
        let mdF : Meta := { meta with fep_status := "captured" }
        ({ pi with status := .succeeded, metadata := mdF },
         { r2 with captured := r2.captured + 1 },
         [.capture, .update mdF])

/-- The sweep loop over the listed intents, threading the counters. -/
def sweepGo (now : Nat) : List PaymentIntent → SweepResults → SweepResults × List StripeCall
  | [], r => (r, [])
  | pi :: rest, r =>
    let step := cronProcess now pi r
    let tail := sweepGo now rest step.2.1
    (tail.1, step.2.2 ++ tail.2)

/-- A full scheduler run over the intents returned by the search. -/
def sweep (now : Nat) (pis : List PaymentIntent) : SweepResults × List StripeCall :=
  sweepGo now pis {}

/-! ## session-status (api/session-status.js): derived UI flags. -/

/-- The session-status `on_hold` flag:
`["on_hold", "issue_reported", "dispute"].includes(fep_status)`. -/
def sessionOnHold (pi : PaymentIntent) : Bool := isOnHoldStatus pi.metadata.fep_status

/-- The session-status `can_buyer_confirm` flag:
`requires_capture && !on_hold && !succeeded && !canceled`. -/
def canBuyerConfirm (pi : PaymentIntent) : Bool :=
  (pi.status = .requires_capture : Bool) && !sessionOnHold pi
    && !(pi.status = .succeeded : Bool) && !(pi.status = .canceled : Bool)

/-! ## Webhook reconciler.  Two variants exist in the repository:
api/webhooks/stripe.js overwrites the escrow metadata on every
`checkout.session.completed`, while the unnamed/part_003 variant guards the
write behind `setEscrowDeadlineIfNeeded`. -/

/-- The `checkout.session.completed` branch of api/webhooks/stripe.js: it
unconditionally updates the intent metadata with a fresh deadline
`now + 72 * 3600` and the session pass-through fields. -/
def webhookCheckoutCompleted (now : Nat) (sessionListingId : String)
    (pi : PaymentIntent) : PaymentIntent :=
  let deadline := now + 72 * 3600
  { pi with metadata :=
      { pi.metadata with fep := "1", fep_status := "authorized",
                         fep_confirm_deadline := deadline,
                         listingId := sessionListingId } }

/-- The helper `setEscrowDeadlineIfNeeded` from unnamed/part_003: only a manual-capture
intent in `requires_capture` without an already-positive deadline receives
the fresh deadline; pass-through metadata keys keep their existing values
when present (string absence is collapsed to `""` in this model, matching
the JS `?? ""` defaults). -/
def setEscrowDeadlineIfNeeded (now : Nat) (optsListingId : String)
    (pi : PaymentIntent) : PaymentIntent :=
  let manual := pi.capture_method = "manual"
  let isAuthorized := pi.status = .requires_capture
  let alreadyHasDeadline := 0 < pi.metadata.fep_confirm_deadline
  if ¬manual ∨ ¬isAuthorized ∨ alreadyHasDeadline then pi
  else
    { pi with metadata :=
        { pi.metadata with fep := "1", fep_status := "authorized",
                           fep_confirm_deadline := now + 72 * 3600,
                           listingId := if pi.metadata.listingId = "" then optsListingId
                                        else pi.metadata.listingId } }

/-! ## create-checkout-session: fee calculator and validation pipeline.
The fee block is lines 263-273 of the second variant (configured rates) and
lines 83-91 of the first (hard-coded `0.05`, `75`, `350`); the cap check is
lines 55-67 / 245-251. -/

/-- The configured fee parameters (defaults are the source defaults). -/
structure FeeConfig where
  sellerFeePercent : ℚ := 5/100
  sellerFeeFixedCents : ℤ := 75
  buyerFeePerTicketCents : ℤ := 350
  deriving DecidableEq, Repr

/-- The computed fee breakdown.  `platformTakeCents` is the
`applicationFeeCents` of the source, before the gross-charge clamp. -/
structure Fees where
  sellerFeePerTicketCents : ℤ
  sellerFeeTotalCents : ℤ
  buyerFeeTotalCents : ℤ
  platformTakeCents : ℤ
  deriving DecidableEq, Repr

/-- The fee calculator:
`sellerFeePerTicket = Math.round(unitAmount * pct) + fixed`,
`sellerFeeTotal = sellerFeePerTicket * qty`,
`buyerFeeTotal = buyerFee * qty`,
`applicationFee = buyerFeeTotal + sellerFeeTotal`. -/
def computeFees (cfg : FeeConfig) (unitAmountCents qty : ℤ) : Fees :=
  let sellerFeePerTicketCents := jsRound ((unitAmountCents : ℚ) * cfg.sellerFeePercent)
                                   + cfg.sellerFeeFixedCents
  let sellerFeeTotalCents := sellerFeePerTicketCents * qty
  let buyerFeeTotalCents := cfg.buyerFeePerTicketCents * qty
  { sellerFeePerTicketCents := sellerFeePerTicketCents,
    sellerFeeTotalCents := sellerFeeTotalCents,
    buyerFeeTotalCents := buyerFeeTotalCents,
    platformTakeCents := buyerFeeTotalCents + sellerFeeTotalCents }

/-- The order-creation request fields the validation pipeline reads.
`face = none` models an absent, null, or empty face value. -/
structure CheckoutRequest where
  listingId : String := ""
  face : Option ℚ := none
  price : ℚ := 0
  qty : ℤ := 1
  sellerAccountId : String := ""
  origin : String := ""
  deriving DecidableEq, Repr

/-- The synchronous validation rejections of create-checkout-session, in
source order. -/
inductive CreateError
  | missingListingId
  | invalidQty
  | invalidPrice
  | capExceeded
  | missingOrigin
  deriving DecidableEq, Repr

/-- The cap check: with a face value whose cents are positive, reject when
`unitAmount > Math.round(faceCents * 1.15)`. -/
def capViolated (face : Option ℚ) (unitAmountCents : ℤ) : Bool :=
  match face with
  | none => false
  | some f =>
    let faceCents := toCents f
    decide (0 < faceCents) && decide (jsRound ((faceCents : ℚ) * (115/100)) < unitAmountCents)

/-- The payload of the single collaborator call
(`stripe.checkout.sessions.create`) issued on the success path. -/
structure SessionPayload where
  unitAmountCents : ℤ
  qty : ℤ
  fees : Fees
  fep_status : String := "authorized"
  fep_confirm_deadline : Nat
  listingId : String
  sellerAccountId : String
  deriving DecidableEq, Repr

/-- The create-checkout-session handler up to the collaborator call: every
`.error` return happens before `stripe.checkout.sessions.create`; the `.ok`
payload is what that single call receives. -/
def createCheckoutSession (cfg : FeeConfig) (now escrowHours : Nat)
    (req : CheckoutRequest) : Except CreateError SessionPayload :=
  if req.listingId = "" then .error .missingListingId
  else if req.qty < 1 ∨ 10 < req.qty then .error .invalidQty
  else
    let unitAmount := toCents req.price
    if unitAmount ≤ 0 then .error .invalidPrice
    else if capViolated req.face unitAmount then .error .capExceeded
    else if req.origin = "" then .error .missingOrigin
    else
      .ok { unitAmountCents := unitAmount, qty := req.qty,
            fees := computeFees cfg unitAmount req.qty,
            fep_confirm_deadline := now + escrowHours * 3600,
            listingId := req.listingId, sellerAccountId := req.sellerAccountId }

/-! ## Concrete example intents used by witnesses and counterexamples -/

/-- A captured (terminal) intent. -/
def piCaptured : PaymentIntent :=
  { status := .succeeded, metadata := { fep_status := "captured" } }

/-- An authorized escrow intent with a payout destination, inside its
confirmation window at time 500. -/
def piAuth : PaymentIntent :=
  { status := .requires_capture,
    metadata := { fep_status := "authorized", fep_confirm_deadline := 1000,
                  price := 20, qty := 2, sellerAccountId := "acct_s1" },
    latest_charge := some "ch_1" }

/-- An intent awaiting capture whose metadata carries the `on_hold` marker,
inside its confirmation window at time 500. -/
def piOnHold : PaymentIntent :=
  { status := .requires_capture,
    metadata := { fep_status := "on_hold", fep_confirm_deadline := 1000,
                  price := 20, qty := 2, sellerAccountId := "acct_s1" },
    latest_charge := some "ch_1" }

/-- An authorized escrow intent past its deadline 1, with no hold marker:
the sweep captures it. -/
def piDue : PaymentIntent :=
  { status := .requires_capture,
    metadata := { fep_status := "authorized", fep_confirm_deadline := 1,
                  price := 20, qty := 2, sellerAccountId := "acct_s1" },
    latest_charge := some "ch_1" }

/-! ## Theorems -/

/-- Claim C8: the fee calculator satisfies
`sellerFeePerTicket = round(unitPriceCents * sellerFeePercent) + sellerFeeFixedCents`,
`sellerFeeTotal = sellerFeePerTicket * quantity`,
`buyerFeeTotal = buyerFeePerTicketCents * quantity`, and
`platformTake = buyerFeeTotal + sellerFeeTotal`; for unitPrice = 2000 cents,
qty = 3, sellerFeePercent = 0.05, sellerFeeFixed = 75, buyerFeePerTicket = 350
it yields 175, 525, 1050, 1575. -/
theorem C8_fee_calculator (cfg : FeeConfig) (u q : ℤ) :
    ((computeFees cfg u q).sellerFeePerTicketCents
        = jsRound ((u : ℚ) * cfg.sellerFeePercent) + cfg.sellerFeeFixedCents
      ∧ (computeFees cfg u q).sellerFeeTotalCents
        = (computeFees cfg u q).sellerFeePerTicketCents * q
      ∧ (computeFees cfg u q).buyerFeeTotalCents = cfg.buyerFeePerTicketCents * q
      ∧ (computeFees cfg u q).platformTakeCents
        = (computeFees cfg u q).buyerFeeTotalCents + (computeFees cfg u q).sellerFeeTotalCents)
    ∧ computeFees { sellerFeePercent := 5/100, sellerFeeFixedCents := 75,
                    buyerFeePerTicketCents := 350 } 2000 3
        = { sellerFeePerTicketCents := 175, sellerFeeTotalCents := 525,
            buyerFeeTotalCents := 1050, platformTakeCents := 1575 } := by
  refine ⟨⟨rfl, rfl, rfl, rfl⟩, ?_⟩
  norm_num [computeFees, jsRound, Int.floor_eq_iff]

/-- Claim C7: with a positive face value supplied, order creation is rejected
before the collaborator call whenever
`unitPriceCents > round(faceValueCents * 1.15)`; with no face value supplied,
the request is never rejected on price-cap grounds. -/
theorem C7_price_cap (cfg : FeeConfig) (now hrs : Nat) (req : CheckoutRequest) :
    (∀ f : ℚ, req.face = some f → 0 < toCents f →
        jsRound ((toCents f : ℚ) * (115/100)) < toCents req.price →
        ∃ e, createCheckoutSession cfg now hrs req = .error e)
    ∧ (req.face = none →
        createCheckoutSession cfg now hrs req ≠ .error .capExceeded) := by
  constructor
  · intro f hface hcpos hcap
    have hcv : capViolated req.face (toCents req.price) = true := by
      simp only [capViolated, hface, Bool.and_eq_true, decide_eq_true_eq]
      exact ⟨hcpos, hcap⟩
    simp only [createCheckoutSession]
    split_ifs <;> exact ⟨_, rfl⟩
  · intro hface
    have hcv : capViolated req.face (toCents req.price) = false := by
      simp [capViolated, hface]
    simp only [createCheckoutSession, hcv]
    split_ifs <;> simp_all

/-- Witness for C7 at concrete inputs: a request priced at 12000 cents over a
10000-cent face value (cap 11500) is rejected, and the same request without a
face value is not cap-rejected. -/
theorem C7_price_cap_witness :
    (∃ e, createCheckoutSession {} 100 72
        { listingId := "L1", face := some 100, price := 120, qty := 1,
          origin := "app" } = .error e)
    ∧ createCheckoutSession {} 100 72
        { listingId := "L1", face := none, price := 120, qty := 1,
          origin := "app" } ≠ .error .capExceeded := by
  constructor
  · exact (C7_price_cap {} 100 72
      { listingId := "L1", face := some 100, price := 120, qty := 1,
        origin := "app" }).1 100 rfl
      (by norm_num [toCents, jsRound, Int.floor_eq_iff])
      (by norm_num [toCents, jsRound, Int.floor_eq_iff])
  · exact (C7_price_cap {} 100 72
      { listingId := "L1", face := none, price := 120, qty := 1,
        origin := "app" }).2 rfl

/-- Claim C10: for an order awaiting capture, confirm-received returns the
deadline-expired rejection exactly when a positive stored deadline exists and
the current time exceeds it; with no stored deadline (absent, empty or zero,
all of which the code coerces to 0) it proceeds to capture. -/
theorem C10_deadline_gate (now : Nat) (tOk : Bool) (pi : PaymentIntent)
    (hst : pi.status = .requires_capture) :
    ((confirmReceived now tOk pi).expiredError = true
        ↔ 0 < pi.metadata.fep_confirm_deadline ∧ pi.metadata.fep_confirm_deadline < now)
    ∧ (pi.metadata.fep_confirm_deadline = 0 →
        (confirmReceived now tOk pi).calls.countP isCaptureCall = 1
          ∧ (confirmReceived now tOk pi).pi.status = .succeeded) := by
  unfold confirmReceived
  simp only [hst, reduceCtorEq, if_false, ite_not, reduceIte, ne_eq]
  constructor
  · split_ifs with h1 h2 h3 <;>
      simp_all [List.countP_cons, List.countP_nil, isCaptureCall] <;> omega
  · intro h0
    split_ifs with h1 h2 h3 <;>
      simp_all [List.countP_cons, List.countP_nil, isCaptureCall]

/-- Witness for C10 at a concrete order with no stored deadline, long past its
authorization: no expiry rejection, and the capture call is issued. -/
theorem C10_deadline_gate_witness :
    ((confirmReceived 999999999 true
        { status := .requires_capture,
          metadata := { fep_status := "authorized", fep_confirm_deadline := 0 } }).expiredError
          = true
      ↔ (0 < (0:Nat) ∧ (0:Nat) < 999999999))
    ∧ (confirmReceived 999999999 true
        { status := .requires_capture,
          metadata := { fep_status := "authorized", fep_confirm_deadline := 0 } }).calls.countP
            isCaptureCall = 1 := by
  have h := C10_deadline_gate 999999999 true
    { status := .requires_capture,
      metadata := { fep_status := "authorized", fep_confirm_deadline := 0 } } rfl
  exact ⟨h.1, (h.2 rfl).1⟩

/-- Claim C2: once an order is terminal (captured or canceled), no endpoint
transition and no scheduler iteration changes its status, and a cancellation
request against an already-captured order is rejected with a 400. -/
theorem C2_terminal_immutable (now : Nat) (tOk : Bool) (r : SweepResults)
    (pi : PaymentIntent)
    (h : pi.status = .succeeded ∨ pi.status = .canceled) :
    (confirmReceived now tOk pi).pi.status = pi.status
    ∧ (cancelOrder now pi).pi.status = pi.status
    ∧ (reportIssue now pi).pi.status = pi.status
    ∧ (markSent now pi).pi.status = pi.status
    ∧ (cronProcess now pi r).1.status = pi.status
    ∧ (pi.status = .succeeded →
        (cancelOrder now pi).httpStatus = 400 ∧ (reportIssue now pi).httpStatus = 400) := by
  rcases h with h | h <;>
    refine ⟨?_, ?_, ?_, ?_, ?_, ?_⟩ <;>
      simp [confirmReceived, cancelOrder, reportIssue, markSent, cronProcess, h] <;>
        (split_ifs <;> simp_all)

/-- Witness for C2 at a concrete captured order. -/
theorem C2_terminal_immutable_witness :
    (cancelOrder 5 piCaptured).httpStatus = 400
    ∧ (reportIssue 5 piCaptured).httpStatus = 400
    ∧ (confirmReceived 5 true piCaptured).pi.status = PIStatus.succeeded := by
  have h := C2_terminal_immutable 5 true {} piCaptured (Or.inl rfl)
  exact ⟨(h.2.2.2.2.2 rfl).1, (h.2.2.2.2.2 rfl).2, h.1⟩

/-- Claim C1: running confirm-received twice on the same order issues exactly
one capture call and one transfer in total; the second run finds the intent
already `succeeded`, returns 200 with `alreadyCaptured = true`, and performs
no capture, transfer, or metadata-update call, leaving the intent unchanged. -/
theorem C1_confirm_twice_idempotent (now now2 : Nat) (pi : PaymentIntent)
    (hst : pi.status = .requires_capture)
    (hdl : ¬(pi.metadata.fep_confirm_deadline ≠ 0 ∧ pi.metadata.fep_confirm_deadline < now))
    (htr : wantsTransfer pi) :
    ((confirmReceived now true pi).calls
        ++ (confirmReceived now2 true (confirmReceived now true pi).pi).calls).countP
          isCaptureCall = 1
    ∧ ((confirmReceived now true pi).calls
        ++ (confirmReceived now2 true (confirmReceived now true pi).pi).calls).countP
          isTransferCall = 1
    ∧ (confirmReceived now2 true (confirmReceived now true pi).pi).alreadyCaptured = true
    ∧ (confirmReceived now2 true (confirmReceived now true pi).pi).httpStatus = 200
    ∧ (confirmReceived now2 true (confirmReceived now true pi).pi).calls = []
    ∧ (confirmReceived now2 true (confirmReceived now true pi).pi).pi
        = (confirmReceived now true pi).pi := by
  have h1 : confirmReceived now true pi =
      { httpStatus := 200, captured := true,
        pi := { pi with
                status := .succeeded,
                metadata := { pi.metadata with
                              fep_status := "captured",
                              fep_captured_at := now,
                              fep_payout_usd := totalPayoutUsd pi.metadata } },
        calls := [.capture,
                  .transfer (jsRound (totalPayoutUsd pi.metadata * 100))
                    pi.metadata.sellerAccountId,
                  .update { pi.metadata with
                            fep_status := "captured",
                            fep_captured_at := now,
                            fep_payout_usd := totalPayoutUsd pi.metadata }] } := by
    simp only [confirmReceived, hst, hdl, htr, reduceCtorEq, if_false, if_true,
      ite_false, ite_true, not_false_eq_true, not_true_eq_false, ne_eq, reduceIte]
  rw [h1]
  simp [confirmReceived, List.countP_cons, List.countP_nil, isCaptureCall, isTransferCall]

/-- Witness for C1 at a concrete authorized order with a payout destination. -/
theorem C1_confirm_twice_idempotent_witness :
    ((confirmReceived 500 true piAuth).calls
      ++ (confirmReceived 999999 true (confirmReceived 500 true piAuth).pi).calls).countP
        isCaptureCall = 1
    ∧ (confirmReceived 999999 true (confirmReceived 500 true piAuth).pi).alreadyCaptured
        = true := by
  have h := C1_confirm_twice_idempotent 500 999999 piAuth rfl (by decide)
    (by
      refine ⟨by decide, ?_, rfl⟩
      norm_num [piAuth, totalPayoutUsd, payoutPerTicketUsd, platformFeePerTicketUsd, max_def])
  exact ⟨h.1, h.2.2.1⟩

/-- Counterexample to claim C3: confirm-received on an on-hold order inside
its window is not rejected; it answers 200 and issues the capture call. -/
theorem C3_on_hold_counterexample :
    (confirmReceived 500 true piOnHold).httpStatus = 200
    ∧ (confirmReceived 500 true piOnHold).captured = true
    ∧ (confirmReceived 500 true piOnHold).calls.countP isCaptureCall = 1 := by
  norm_num [piOnHold, confirmReceived, wantsTransfer, totalPayoutUsd, payoutPerTicketUsd,
    platformFeePerTicketUsd, jsRound, max_def]
  decide

/-- Claim C3 as amended: the confirm-received endpoint does not consult the
hold markers at all — an on-hold order awaiting capture inside its window is
captured, with no expiry rejection; the hold suppression exists only as the
session-status `can_buyer_confirm` UI flag, which is false for such orders. -/
theorem C3_on_hold_not_enforced (now : Nat) (tOk : Bool) (pi : PaymentIntent)
    (hst : pi.status = .requires_capture)
    (hon : isOnHoldStatus pi.metadata.fep_status = true)
    (hdl : ¬(pi.metadata.fep_confirm_deadline ≠ 0 ∧ pi.metadata.fep_confirm_deadline < now)) :
    (confirmReceived now tOk pi).expiredError = false
    ∧ (confirmReceived now tOk pi).pi.status = .succeeded
    ∧ (confirmReceived now tOk pi).calls.countP isCaptureCall = 1
    ∧ canBuyerConfirm pi = false := by
  refine ⟨?_, ?_, ?_, ?_⟩ <;>
    first
      | (simp only [confirmReceived, hst, hdl, reduceCtorEq, if_false, ite_false, reduceIte,
          not_false_eq_true, ne_eq]
         split_ifs <;>
           simp_all [List.countP_cons, List.countP_nil, isCaptureCall])
      | simp [canBuyerConfirm, sessionOnHold, hon]

/-- Witness for the amended C3 at the concrete on-hold order. -/
theorem C3_on_hold_not_enforced_witness :
    (confirmReceived 500 true piOnHold).pi.status = PIStatus.succeeded
    ∧ canBuyerConfirm piOnHold = false := by
  have h := C3_on_hold_not_enforced 500 true piOnHold rfl (by decide) (by decide)
  exact ⟨h.2.1, h.2.2.2⟩

/-- Counterexample to claim C4: report-issue on an authorized order inside its
window does not set `on_hold`; it writes `issue_reported` and issues a cancel
call, leaving the intent canceled. -/
theorem C4_report_issue_counterexample :
    (reportIssue 500 piAuth).pi.metadata.fep_status ≠ "on_hold"
    ∧ (reportIssue 500 piAuth).calls.countP isCancelCall = 1
    ∧ (reportIssue 500 piAuth).pi.status = PIStatus.canceled := by
  decide

/-- Claim C4 as amended: on an order awaiting capture, report-issue marks the
metadata `fep_status = "issue_reported"` (with `fep_canceled_at`) and then
cancels the authorization — one cancel call, no capture — so the order ends
canceled rather than parked on hold for the scheduler. -/
theorem C4_report_issue_cancels (now : Nat) (pi : PaymentIntent)
    (hst : pi.status = .requires_capture) :
    (reportIssue now pi).httpStatus = 200
    ∧ (reportIssue now pi).pi.status = .canceled
    ∧ (reportIssue now pi).pi.metadata.fep_status = "issue_reported"
    ∧ (reportIssue now pi).pi.metadata.fep_canceled_at = now
    ∧ (reportIssue now pi).calls.countP isCancelCall = 1
    ∧ (reportIssue now pi).calls.countP isCaptureCall = 0 := by
  simp [reportIssue, hst, List.countP_cons, List.countP_nil, isCancelCall, isCaptureCall]

/-- Witness for the amended C4 at the concrete authorized order. -/
theorem C4_report_issue_cancels_witness :
    (reportIssue 600 piAuth).pi.status = PIStatus.canceled
    ∧ (reportIssue 600 piAuth).pi.metadata.fep_status = "issue_reported" := by
  have h := C4_report_issue_cancels 600 piAuth rfl
  exact ⟨h.2.1, h.2.2.1⟩

/-- Counterexample to claim C5: the api/webhooks/stripe.js handler, on a
`checkout.session.completed` event at time 200, overwrites an already-stored
deadline (here 1) instead of leaving it unchanged. -/
theorem C5_deadline_counterexample :
    (webhookCheckoutCompleted 200 "L1" piDue).metadata.fep_confirm_deadline
      ≠ piDue.metadata.fep_confirm_deadline := by
  decide

/-- Claim C5 as amended: only the `setEscrowDeadlineIfNeeded` reconciler
variant assigns the deadline at most once — an intent whose stored deadline
is already positive is left completely unchanged — while the plain webhook
handler reassigns `fep_confirm_deadline` to eventTime + 72h on every
checkout-completed event, which never decreases a stored deadline that was
itself computed as an earlier time plus the same 72h window. -/
theorem C5_deadline_reconciler :
    (∀ (now : Nat) (lid : String) (pi : PaymentIntent),
        0 < pi.metadata.fep_confirm_deadline →
        setEscrowDeadlineIfNeeded now lid pi = pi)
    ∧ (∀ (now : Nat) (lid : String) (pi : PaymentIntent),
        pi.metadata.fep_confirm_deadline ≤ now + 72 * 3600 →
        pi.metadata.fep_confirm_deadline
          ≤ (webhookCheckoutCompleted now lid pi).metadata.fep_confirm_deadline) := by
  constructor
  · intro now lid pi h
    simp [setEscrowDeadlineIfNeeded, h]
  · intro now lid pi h
    simpa [webhookCheckoutCompleted] using h

/-- Witness for the amended C5 at the concrete intent with stored deadline 1. -/
theorem C5_deadline_reconciler_witness :
    setEscrowDeadlineIfNeeded 200 "L1" piDue = piDue
    ∧ piDue.metadata.fep_confirm_deadline
        ≤ (webhookCheckoutCompleted 200 "L1" piDue).metadata.fep_confirm_deadline := by
  exact ⟨C5_deadline_reconciler.1 200 "L1" piDue (by decide),
         C5_deadline_reconciler.2 200 "L1" piDue (by decide)⟩

/-- Counterexample to claim C6: when the capture succeeds and the payout
transfer then fails, confirm-received does not report success — it answers
500 with the generic capture-failure error and no warning, even though the
intent remains captured. -/
theorem C6_transfer_failure_counterexample :
    (confirmReceived 500 false piAuth).httpStatus = 500
    ∧ (confirmReceived 500 false piAuth).serverError = true
    ∧ (confirmReceived 500 false piAuth).captured = false
    ∧ (confirmReceived 500 false piAuth).pi.status = PIStatus.succeeded := by
  norm_num [piAuth, confirmReceived, wantsTransfer, totalPayoutUsd, payoutPerTicketUsd,
    platformFeePerTicketUsd, jsRound, max_def]
  decide

/-- Claim C6 as amended: a transfer failure after a successful capture never
rolls the capture back — no cancel call is issued and the intent stays
captured — but the handler skips the metadata update and surfaces the run as
a 500 error response instead of a success with a warning. -/
theorem C6_transfer_failure_no_rollback (now : Nat) (pi : PaymentIntent)
    (hst : pi.status = .requires_capture)
    (hdl : ¬(pi.metadata.fep_confirm_deadline ≠ 0 ∧ pi.metadata.fep_confirm_deadline < now))
    (htr : wantsTransfer pi) :
    (confirmReceived now false pi).httpStatus = 500
    ∧ (confirmReceived now false pi).serverError = true
    ∧ (confirmReceived now false pi).pi.status = .succeeded
    ∧ (confirmReceived now false pi).pi.metadata = pi.metadata
    ∧ (confirmReceived now false pi).calls.countP isCaptureCall = 1
    ∧ (confirmReceived now false pi).calls.countP isCancelCall = 0
    ∧ (confirmReceived now false pi).calls.countP isUpdateCall = 0 := by
  simp only [confirmReceived, hst, hdl, htr, reduceCtorEq, if_false, if_true,
    ite_false, ite_true, not_false_eq_true, not_true_eq_false, ne_eq, reduceIte,
    Bool.false_eq_true]
  simp [List.countP_cons, List.countP_nil, isCaptureCall, isCancelCall, isUpdateCall]

/-- Witness for the amended C6 at the concrete authorized order. -/
theorem C6_transfer_failure_no_rollback_witness :
    (confirmReceived 700 false piAuth).httpStatus = 500
    ∧ (confirmReceived 700 false piAuth).pi.status = PIStatus.succeeded
    ∧ (confirmReceived 700 false piAuth).calls.countP isCancelCall = 0 := by
  have h := C6_transfer_failure_no_rollback 700 piAuth rfl (by decide)
    (by
      refine ⟨by decide, ?_, rfl⟩
      norm_num [piAuth, totalPayoutUsd, payoutPerTicketUsd, platformFeePerTicketUsd, max_def])
  exact ⟨h.1, h.2.2.1, h.2.2.2.2.2.1⟩

/-- Each sweep iteration increments `checked`, and bumps `due` exactly when
it issues exactly one settlement operation, counted in `captured` or
`canceled`. -/
theorem cronProcess_spec (now : Nat) (pi : PaymentIntent) (r : SweepResults) :
    (cronProcess now pi r).2.1.due
        = r.due + (cronProcess now pi r).2.2.countP isSettlementOp
    ∧ (cronProcess now pi r).2.1.captured + (cronProcess now pi r).2.1.canceled
        = r.captured + r.canceled + (cronProcess now pi r).2.2.countP isSettlementOp
    ∧ (cronProcess now pi r).2.1.checked = r.checked + 1 := by
  simp only [cronProcess]
  split_ifs <;>
    simp [List.countP_cons, List.countP_nil, isSettlementOp, isCaptureCall, isCancelCall] <;>
      omega

/-- The sweep loop preserves the coupling between `due`, the settlement
counters, and the settlement calls issued. -/
theorem sweepGo_spec (now : Nat) (pis : List PaymentIntent) (r : SweepResults) :
    (sweepGo now pis r).1.due = r.due + (sweepGo now pis r).2.countP isSettlementOp
    ∧ (sweepGo now pis r).1.captured + (sweepGo now pis r).1.canceled
        = r.captured + r.canceled + (sweepGo now pis r).2.countP isSettlementOp
    ∧ (sweepGo now pis r).1.checked = r.checked + pis.length := by
  induction pis generalizing r with
  | nil => simp [sweepGo]
  | cons pi rest ih =>
    obtain ⟨hdue1, hcc1, hchk1⟩ := cronProcess_spec now pi r
    obtain ⟨hdue2, hcc2, hchk2⟩ := ih (cronProcess now pi r).2.1
    refine ⟨?_, ?_, ?_⟩ <;>
      simp only [sweepGo, List.countP_append, List.length_cons] <;> omega

/-- One sweep iteration on the concrete due order at time 2 captures it and
bumps `checked`, `due`, `captured`. -/
theorem cronProcess_piDue (r : SweepResults) :
    cronProcess 2 piDue r =
      ({ piDue with status := .succeeded,
                    metadata := { piDue.metadata with fep_status := "captured" } },
       { r with checked := r.checked + 1, due := r.due + 1, captured := r.captured + 1 },
       [.capture, .update { piDue.metadata with fep_status := "captured" }]) := rfl

/-- A backlog of `k` copies of the due order makes the sweep loop perform `k`
captures. -/
theorem sweepGo_replicate_piDue (k : Nat) (r : SweepResults) :
    (sweepGo 2 (List.replicate k piDue) r).1.captured = r.captured + k := by
  induction k generalizing r with
  | zero => simp [sweepGo]
  | succ n ih =>
    rw [List.replicate_succ]
    simp only [sweepGo, cronProcess_piDue]
    rw [ih]
    simp
    omega

/-- Counterexample to claim C9: the sweep has no per-run operation cap — no
bound N holds across all runs, since a backlog of N + 1 due orders makes a
single run perform N + 1 settlement operations. -/
theorem C9_sweep_cap_counterexample :
    ¬ ∃ N : Nat, ∀ (now : Nat) (pis : List PaymentIntent),
        (sweep now pis).1.captured + (sweep now pis).1.canceled ≤ N := by
  rintro ⟨N, hN⟩
  have h := hN 2 (List.replicate (N + 1) piDue)
  have hc : (sweep 2 (List.replicate (N + 1) piDue)).1.captured = N + 1 := by
    simpa [sweep] using sweepGo_replicate_piDue (N + 1) {}
  omega

/-- Claim C9 as amended: each run checks every listed intent and performs one
settlement operation per due order — `captured + canceled = due`, matching
the capture/cancel calls issued — with no per-run bound independent of the
backlog size. -/
theorem C9_sweep_uncapped_ops (now : Nat) (pis : List PaymentIntent) :
    (sweep now pis).1.checked = pis.length
    ∧ (sweep now pis).1.captured + (sweep now pis).1.canceled = (sweep now pis).1.due
    ∧ (sweep now pis).2.countP isSettlementOp = (sweep now pis).1.due := by
  obtain ⟨hdue, hcc, hchk⟩ := sweepGo_spec now pis {}
  refine ⟨?_, ?_, ?_⟩ <;> simp_all [sweep]

end FEP
